import Mathlib

/-!
Verification of the SiFive Freedom GPIO driver (`drivers/gpio/gpio_sifive.c`).

The driver operates on a memory-mapped block of 32-bit registers, one bit per
pin.  We embed the register block as a structure of natural numbers (each
`< 2^32` in hardware; the theorems only ever inspect bits `0..31`), and each
driver entry point as a pure function from the register state (plus its C
arguments) to a result and the new register state.  C's `reg |= BIT(pin)` is
`reg ||| BIT pin` and `reg &= ~BIT(pin)` is `reg &&& compl32 (BIT pin)`, where
`compl32` is the 32-bit one's complement.
-/

namespace GpioSifive

/-- `BIT(pin)` from the C sources: `1 << pin`. -/
def BIT (pin : Nat) : Nat := 1 <<< pin

/-- C's `~m` on a 32-bit `unsigned int`: one's complement within 32 bits. -/
def compl32 (m : Nat) : Nat := (2 ^ 32 - 1) ^^^ m

/-- Modelled from the spec: `PIN_COUNT`.  The register block is a set of
32-bit-wide bit-vectors, one bit per pin, so there are 32 pins; the constant
itself lives in the SoC header, outside the core source. -/
def SIFIVE_PINMUX_PINS : Nat := 32

/-- Modelled from the spec: the per-pin addressing-mode selector from the host
runtime's `gpio.h` (only single-pin mode is supported by this core). -/
def GPIO_ACCESS_BY_PIN : Nat := 0

/-- Modelled from the spec: flag bit requesting output direction
(`gpio.h`, outside the core source). -/
def GPIO_DIR_OUT : Nat := 1 <<< 0

/-- Modelled from the spec: flag bit requesting interrupt configuration. -/
def GPIO_INT : Nat := 1 <<< 1

/-- Modelled from the spec: flag bit selecting active-high trigger polarity. -/
def GPIO_INT_ACTIVE_HIGH : Nat := 1 <<< 2

/-- Modelled from the spec: flag bit selecting edge (vs. level) triggering. -/
def GPIO_INT_EDGE : Nat := 1 <<< 5

/-- Modelled from the spec: flag bit selecting double-edge triggering. -/
def GPIO_INT_DOUBLE_EDGE : Nat := 1 <<< 6

/-- Modelled from the spec: flag bit requesting polarity inversion. -/
def GPIO_POL_INV : Nat := 1 <<< 7

/-- Modelled from the spec: two-bit pull-up/pull-down field mask. -/
def GPIO_PUD_MASK : Nat := 3 <<< 8

/-- Modelled from the spec: pull-up request value of the pull field. -/
def GPIO_PUD_PULL_UP : Nat := 1 <<< 8

/-- Modelled from the spec: pull-down request value of the pull field. -/
def GPIO_PUD_PULL_DOWN : Nat := 2 <<< 8

/-- The sifive GPIO register-set structure (`struct gpio_sifive_t`),
17 sequential 32-bit registers. -/
structure gpio_sifive_t where
  in_val  : Nat
  in_en   : Nat
  out_en  : Nat
  out_val : Nat
  pue     : Nat
  ds      : Nat
  rise_ie : Nat
  rise_ip : Nat
  fall_ie : Nat
  fall_ip : Nat
  high_ie : Nat
  high_ip : Nat
  low_ie  : Nat
  low_ip  : Nat
  iof_en  : Nat
  iof_sel : Nat
  invert  : Nat
deriving Repr, DecidableEq

/-- The error codes the driver returns (`-EINVAL`, `-ENOTSUP`); `0` is
modelled as `Except.ok`. -/
inductive Errno where
  | EINVAL
  | ENOTSUP
deriving Repr, DecidableEq

/-- The interrupt-configuration tail of `gpio_sifive_config` (the code after
the direction branch, lines 149-197).  The two unconditional
level-enable (resp. edge-enable) clears at the head of each C branch are
folded into each leaf's record update; the updated fields are pairwise
distinct, so the result is the same register state. -/
def config_interrupt (pin : Nat) (flags : Nat) (gpio : gpio_sifive_t) :
    Except Errno Unit × gpio_sifive_t :=
  if flags &&& GPIO_INT = 0 then (Except.ok (), gpio)
  else if flags &&& GPIO_DIR_OUT ≠ 0 then (Except.error Errno.EINVAL, gpio)
  else if flags &&& GPIO_INT_EDGE ≠ 0 then
    if flags &&& GPIO_INT_DOUBLE_EDGE ≠ 0 then
      (Except.ok (), { gpio with
        high_ie := gpio.high_ie &&& compl32 (BIT pin),
        low_ie  := gpio.low_ie &&& compl32 (BIT pin),
        rise_ie := gpio.rise_ie ||| BIT pin,
        fall_ie := gpio.fall_ie ||| BIT pin })
    else if flags &&& GPIO_INT_ACTIVE_HIGH ≠ 0 then
      (Except.ok (), { gpio with
        high_ie := gpio.high_ie &&& compl32 (BIT pin),
        low_ie  := gpio.low_ie &&& compl32 (BIT pin),
        rise_ie := gpio.rise_ie ||| BIT pin,
        fall_ie := gpio.fall_ie &&& compl32 (BIT pin) })
    else
      (Except.ok (), { gpio with
        high_ie := gpio.high_ie &&& compl32 (BIT pin),
        low_ie  := gpio.low_ie &&& compl32 (BIT pin),
        rise_ie := gpio.rise_ie &&& compl32 (BIT pin),
        fall_ie := gpio.fall_ie ||| BIT pin })
  else
    if flags &&& GPIO_INT_ACTIVE_HIGH ≠ 0 then
      (Except.ok (), { gpio with
        rise_ie := gpio.rise_ie &&& compl32 (BIT pin),
        fall_ie := gpio.fall_ie &&& compl32 (BIT pin),
        high_ie := gpio.high_ie ||| BIT pin,
        low_ie  := gpio.low_ie &&& compl32 (BIT pin) })
    else
      (Except.ok (), { gpio with
        rise_ie := gpio.rise_ie &&& compl32 (BIT pin),
        fall_ie := gpio.fall_ie &&& compl32 (BIT pin),
        high_ie := gpio.high_ie &&& compl32 (BIT pin),
        low_ie  := gpio.low_ie ||| BIT pin })

/-- `gpio_sifive_config` (lines 102-198).  Note the C code applies the
direction bits (and, in the output branch, the invert bit) *before* the
polarity/pull/interrupt validity checks, so those registers are already
written when an `-EINVAL` for an invalid combination is returned. -/
def gpio_sifive_config (access_op : Nat) (pin : Nat) (flags : Nat)
    (gpio : gpio_sifive_t) : Except Errno Unit × gpio_sifive_t :=
  if access_op ≠ GPIO_ACCESS_BY_PIN then (Except.error Errno.ENOTSUP, gpio)
  else if SIFIVE_PINMUX_PINS ≤ pin then (Except.error Errno.EINVAL, gpio)
  else if flags &&& GPIO_DIR_OUT ≠ 0 then
    config_interrupt pin flags { gpio with
      in_en  := gpio.in_en &&& compl32 (BIT pin),
      out_en := gpio.out_en ||| BIT pin,
      invert := if flags &&& GPIO_POL_INV ≠ 0 then gpio.invert ||| BIT pin
                else gpio.invert &&& compl32 (BIT pin) }
  else
    let g1 : gpio_sifive_t := { gpio with
      out_en := gpio.out_en &&& compl32 (BIT pin),
      in_en  := gpio.in_en ||| BIT pin }
    if flags &&& GPIO_POL_INV ≠ 0 then (Except.error Errno.EINVAL, g1)
    else if flags &&& GPIO_PUD_MASK = GPIO_PUD_PULL_DOWN then
      (Except.error Errno.EINVAL, g1)
    else
      config_interrupt pin flags { g1 with
        pue := if flags &&& GPIO_PUD_MASK = GPIO_PUD_PULL_UP then
                 g1.pue ||| BIT pin
               else g1.pue &&& compl32 (BIT pin) }

/-- `gpio_sifive_write` (lines 210-233). -/
def gpio_sifive_write (access_op : Nat) (pin : Nat) (value : Nat)
    (gpio : gpio_sifive_t) : Except Errno Unit × gpio_sifive_t :=
  if access_op ≠ GPIO_ACCESS_BY_PIN then (Except.error Errno.ENOTSUP, gpio)
  else if SIFIVE_PINMUX_PINS ≤ pin then (Except.error Errno.EINVAL, gpio)
  else if gpio.in_en &&& BIT pin ≠ 0 then (Except.error Errno.EINVAL, gpio)
  else if value ≠ 0 then
    (Except.ok (), { gpio with out_val := gpio.out_val ||| BIT pin })
  else
    (Except.ok (), { gpio with out_val := gpio.out_val &&& compl32 (BIT pin) })

/-- `gpio_sifive_read` (lines 245-269); the returned `Nat` is the `0`/`1`
written through `*value` (C's `!!`), and the register state is returned
unchanged — the function performs no register write. -/
def gpio_sifive_read (access_op : Nat) (pin : Nat)
    (gpio : gpio_sifive_t) : Except Errno Nat × gpio_sifive_t :=
  if access_op ≠ GPIO_ACCESS_BY_PIN then (Except.error Errno.ENOTSUP, gpio)
  else if SIFIVE_PINMUX_PINS ≤ pin then (Except.error Errno.EINVAL, gpio)
  else if gpio.out_en &&& BIT pin ≠ 0 then
    (Except.ok (if gpio.out_val &&& BIT pin ≠ 0 then 1 else 0), gpio)
  else
    (Except.ok (if gpio.in_val &&& BIT pin ≠ 0 then 1 else 0), gpio)

/-- Modelled from the spec: `gpio_fire_callbacks` (from `gpio_utils.h`,
outside the core source) invokes every registered callback whose stored
bitmask intersects the pin mask.  Callbacks are represented by their
registered bitmasks; the result lists, in registration order, the masks of
the callbacks invoked. -/
def gpio_fire_callbacks (cbs : List Nat) (pin_mask : Nat) : List Nat :=
  cbs.filter (fun m => m &&& pin_mask ≠ 0)

/-- Modelled from the spec: the interrupt-pending registers have
write-1-to-clear semantics — storing `v` clears exactly the bits set in `v`
and leaves every other bit unchanged. -/
def w1c_store (old v : Nat) : Nat := old &&& compl32 v

/-- `gpio_sifive_irq_handler` (lines 62-90).  `pin` is the pin number
computed from the PLIC line (`riscv_plic_get_irq () - (irq_base -
RISCV_MAX_GENERIC_IRQ)`); `pin_mask = 1 << pin`.  The handler fires the
matching callbacks, then writes `pin_mask` to the first pending register
(rise, fall, high, low, in that order) whose pin bit is set; the register
store is interpreted by the hardware's write-1-to-clear semantics
(`w1c_store`).  Returns the list of fired callback masks and the new
register state. -/
def gpio_sifive_irq_handler (cbs : List Nat) (pin : Nat)
    (gpio : gpio_sifive_t) : List Nat × gpio_sifive_t :=
  let pin_mask := BIT pin
  let fired := gpio_fire_callbacks cbs pin_mask
  if gpio.rise_ip &&& pin_mask ≠ 0 then
    (fired, { gpio with rise_ip := w1c_store gpio.rise_ip pin_mask })
  else if gpio.fall_ip &&& pin_mask ≠ 0 then
    (fired, { gpio with fall_ip := w1c_store gpio.fall_ip pin_mask })
  else if gpio.high_ip &&& pin_mask ≠ 0 then
    (fired, { gpio with high_ip := w1c_store gpio.high_ip pin_mask })
  else if gpio.low_ip &&& pin_mask ≠ 0 then
    (fired, { gpio with low_ip := w1c_store gpio.low_ip pin_mask })
  else
    (fired, gpio)

/-- `gpio_sifive_init` (lines 334-353): zeroes the eight mutable
configuration registers (the PLIC wiring `gpio_cfg_func` is boot glue,
out of scope).  Always returns 0. -/
def gpio_sifive_init (gpio : gpio_sifive_t) :
    Except Errno Unit × gpio_sifive_t :=
  (Except.ok (), { gpio with
    in_en   := 0,
    out_en  := 0,
    pue     := 0,
    rise_ie := 0,
    fall_ie := 0,
    high_ie := 0,
    low_ie  := 0,
    invert  := 0 })

/-! ### Bit-level helper lemmas -/

theorem testBit_BIT (pin i : Nat) : (BIT pin).testBit i = decide (pin = i) := by
  simp [BIT, Nat.one_shiftLeft, Nat.testBit_two_pow]

theorem testBit_compl32 (m i : Nat) (hi : i < 32) :
    (compl32 m).testBit i = !(m.testBit i) := by
  have h : Nat.testBit (2 ^ 32 - 1) i = true := by
    rw [Nat.testBit_two_pow_sub_one]
    simpa using hi
  rw [compl32, Nat.testBit_xor, h, Bool.true_xor]

theorem testBit_set_self (r pin : Nat) :
    (r ||| BIT pin).testBit pin = true := by
  simp [Nat.testBit_or, testBit_BIT]

theorem testBit_set_other (r pin i : Nat) (hne : i ≠ pin) :
    (r ||| BIT pin).testBit i = r.testBit i := by
  simp [Nat.testBit_or, testBit_BIT, (Ne.symm hne)]

theorem testBit_clear_self (r pin : Nat) (hpin : pin < 32) :
    (r &&& compl32 (BIT pin)).testBit pin = false := by
  simp [Nat.testBit_and, testBit_compl32 _ _ hpin, testBit_BIT]

theorem testBit_clear_other (r pin i : Nat) (hi : i < 32) (hne : i ≠ pin) :
    (r &&& compl32 (BIT pin)).testBit i = r.testBit i := by
  simp [Nat.testBit_and, testBit_compl32 _ _ hi, testBit_BIT, (Ne.symm hne)]

theorem land_BIT_eq_zero_iff (x pin : Nat) :
    x &&& BIT pin = 0 ↔ x.testBit pin = false := by
  constructor
  · intro h
    have := congrArg (fun n => n.testBit pin) h
    simpa [Nat.testBit_and, testBit_BIT] using this
  · intro h
    apply Nat.eq_of_testBit_eq
    intro i
    by_cases hip : pin = i
    · subst hip; simp [Nat.testBit_and, testBit_BIT, h]
    · simp [Nat.testBit_and, testBit_BIT, hip]

theorem land_BIT_ne_zero_iff (x pin : Nat) :
    x &&& BIT pin ≠ 0 ↔ x.testBit pin = true := by
  rw [Ne, land_BIT_eq_zero_iff]
  simp

/-! ### Concrete register states used by witnesses and counterexamples -/

/-- The all-zero register state (the state right after `gpio_sifive_init`). -/
def regs0 : gpio_sifive_t :=
  { in_val := 0, in_en := 0, out_en := 0, out_val := 0, pue := 0, ds := 0,
    rise_ie := 0, rise_ip := 0, fall_ie := 0, fall_ip := 0,
    high_ie := 0, high_ip := 0, low_ie := 0, low_ip := 0,
    iof_en := 0, iof_sel := 0, invert := 0 }

/-- A state in which pin 0 is configured as an output. -/
def regsOut0 : gpio_sifive_t := { regs0 with out_en := BIT 0 }

/-! ### Branch-shape lemmas

Each lemma rewrites one control-flow path of the embedded C functions into
its explicit result, so the claim proofs below are plain case analyses. -/

theorem config_interrupt_noint (pin flags : Nat) (g : gpio_sifive_t)
    (h : flags &&& GPIO_INT = 0) :
    config_interrupt pin flags g = (Except.ok (), g) := by
  simp only [config_interrupt]
  rw [if_pos h]

theorem config_interrupt_int_out (pin flags : Nat) (g : gpio_sifive_t)
    (h1 : flags &&& GPIO_INT ≠ 0) (h2 : flags &&& GPIO_DIR_OUT ≠ 0) :
    config_interrupt pin flags g = (Except.error Errno.EINVAL, g) := by
  simp only [config_interrupt]
  rw [if_neg h1, if_pos h2]

theorem config_interrupt_edge_double (pin flags : Nat) (g : gpio_sifive_t)
    (h1 : flags &&& GPIO_INT ≠ 0) (h2 : flags &&& GPIO_DIR_OUT = 0)
    (h3 : flags &&& GPIO_INT_EDGE ≠ 0) (h4 : flags &&& GPIO_INT_DOUBLE_EDGE ≠ 0) :
    config_interrupt pin flags g = (Except.ok (), { g with
      high_ie := g.high_ie &&& compl32 (BIT pin),
      low_ie  := g.low_ie &&& compl32 (BIT pin),
      rise_ie := g.rise_ie ||| BIT pin,
      fall_ie := g.fall_ie ||| BIT pin }) := by
  simp only [config_interrupt]
  rw [if_neg h1, if_neg (fun hn => hn h2), if_pos h3, if_pos h4]

theorem config_interrupt_edge_high (pin flags : Nat) (g : gpio_sifive_t)
    (h1 : flags &&& GPIO_INT ≠ 0) (h2 : flags &&& GPIO_DIR_OUT = 0)
    (h3 : flags &&& GPIO_INT_EDGE ≠ 0) (h4 : flags &&& GPIO_INT_DOUBLE_EDGE = 0)
    (h5 : flags &&& GPIO_INT_ACTIVE_HIGH ≠ 0) :
    config_interrupt pin flags g = (Except.ok (), { g with
      high_ie := g.high_ie &&& compl32 (BIT pin),
      low_ie  := g.low_ie &&& compl32 (BIT pin),
      rise_ie := g.rise_ie ||| BIT pin,
      fall_ie := g.fall_ie &&& compl32 (BIT pin) }) := by
  simp only [config_interrupt]
  rw [if_neg h1, if_neg (fun hn => hn h2), if_pos h3, if_neg (fun hn => hn h4),
    if_pos h5]

theorem config_interrupt_edge_low (pin flags : Nat) (g : gpio_sifive_t)
    (h1 : flags &&& GPIO_INT ≠ 0) (h2 : flags &&& GPIO_DIR_OUT = 0)
    (h3 : flags &&& GPIO_INT_EDGE ≠ 0) (h4 : flags &&& GPIO_INT_DOUBLE_EDGE = 0)
    (h5 : flags &&& GPIO_INT_ACTIVE_HIGH = 0) :
    config_interrupt pin flags g = (Except.ok (), { g with
      high_ie := g.high_ie &&& compl32 (BIT pin),
      low_ie  := g.low_ie &&& compl32 (BIT pin),
      rise_ie := g.rise_ie &&& compl32 (BIT pin),
      fall_ie := g.fall_ie ||| BIT pin }) := by
  simp only [config_interrupt]
  rw [if_neg h1, if_neg (fun hn => hn h2), if_pos h3, if_neg (fun hn => hn h4),
    if_neg (fun hn => hn h5)]

theorem config_interrupt_level_high (pin flags : Nat) (g : gpio_sifive_t)
    (h1 : flags &&& GPIO_INT ≠ 0) (h2 : flags &&& GPIO_DIR_OUT = 0)
    (h3 : flags &&& GPIO_INT_EDGE = 0) (h5 : flags &&& GPIO_INT_ACTIVE_HIGH ≠ 0) :
    config_interrupt pin flags g = (Except.ok (), { g with
      rise_ie := g.rise_ie &&& compl32 (BIT pin),
      fall_ie := g.fall_ie &&& compl32 (BIT pin),
      high_ie := g.high_ie ||| BIT pin,
      low_ie  := g.low_ie &&& compl32 (BIT pin) }) := by
  simp only [config_interrupt]
  rw [if_neg h1, if_neg (fun hn => hn h2), if_neg (fun hn => hn h3), if_pos h5]

theorem config_interrupt_level_low (pin flags : Nat) (g : gpio_sifive_t)
    (h1 : flags &&& GPIO_INT ≠ 0) (h2 : flags &&& GPIO_DIR_OUT = 0)
    (h3 : flags &&& GPIO_INT_EDGE = 0) (h5 : flags &&& GPIO_INT_ACTIVE_HIGH = 0) :
    config_interrupt pin flags g = (Except.ok (), { g with
      rise_ie := g.rise_ie &&& compl32 (BIT pin),
      fall_ie := g.fall_ie &&& compl32 (BIT pin),
      high_ie := g.high_ie &&& compl32 (BIT pin),
      low_ie  := g.low_ie ||| BIT pin }) := by
  simp only [config_interrupt]
  rw [if_neg h1, if_neg (fun hn => hn h2), if_neg (fun hn => hn h3),
    if_neg (fun hn => hn h5)]

/-! `config_interrupt` only ever writes the four interrupt-enable
registers: every other field is returned unchanged (one lemma per field). -/

theorem config_interrupt_in_val (pin flags : Nat) (g : gpio_sifive_t) :
    (config_interrupt pin flags g).2.in_val = g.in_val := by
  simp only [config_interrupt]; split_ifs <;> rfl

theorem config_interrupt_in_en (pin flags : Nat) (g : gpio_sifive_t) :
    (config_interrupt pin flags g).2.in_en = g.in_en := by
  simp only [config_interrupt]; split_ifs <;> rfl

theorem config_interrupt_out_en (pin flags : Nat) (g : gpio_sifive_t) :
    (config_interrupt pin flags g).2.out_en = g.out_en := by
  simp only [config_interrupt]; split_ifs <;> rfl

theorem config_interrupt_out_val (pin flags : Nat) (g : gpio_sifive_t) :
    (config_interrupt pin flags g).2.out_val = g.out_val := by
  simp only [config_interrupt]; split_ifs <;> rfl

theorem config_interrupt_pue (pin flags : Nat) (g : gpio_sifive_t) :
    (config_interrupt pin flags g).2.pue = g.pue := by
  simp only [config_interrupt]; split_ifs <;> rfl

theorem config_interrupt_ds (pin flags : Nat) (g : gpio_sifive_t) :
    (config_interrupt pin flags g).2.ds = g.ds := by
  simp only [config_interrupt]; split_ifs <;> rfl

theorem config_interrupt_rise_ip (pin flags : Nat) (g : gpio_sifive_t) :
    (config_interrupt pin flags g).2.rise_ip = g.rise_ip := by
  simp only [config_interrupt]; split_ifs <;> rfl

theorem config_interrupt_fall_ip (pin flags : Nat) (g : gpio_sifive_t) :
    (config_interrupt pin flags g).2.fall_ip = g.fall_ip := by
  simp only [config_interrupt]; split_ifs <;> rfl

theorem config_interrupt_high_ip (pin flags : Nat) (g : gpio_sifive_t) :
    (config_interrupt pin flags g).2.high_ip = g.high_ip := by
  simp only [config_interrupt]; split_ifs <;> rfl

theorem config_interrupt_low_ip (pin flags : Nat) (g : gpio_sifive_t) :
    (config_interrupt pin flags g).2.low_ip = g.low_ip := by
  simp only [config_interrupt]; split_ifs <;> rfl

theorem config_interrupt_iof_en (pin flags : Nat) (g : gpio_sifive_t) :
    (config_interrupt pin flags g).2.iof_en = g.iof_en := by
  simp only [config_interrupt]; split_ifs <;> rfl

theorem config_interrupt_iof_sel (pin flags : Nat) (g : gpio_sifive_t) :
    (config_interrupt pin flags g).2.iof_sel = g.iof_sel := by
  simp only [config_interrupt]; split_ifs <;> rfl

theorem config_interrupt_invert (pin flags : Nat) (g : gpio_sifive_t) :
    (config_interrupt pin flags g).2.invert = g.invert := by
  simp only [config_interrupt]; split_ifs <;> rfl

/-! `config_interrupt` writes at most the bit at index `pin` of each of the
four interrupt-enable registers. -/

theorem config_interrupt_rise_ie_frame (pin flags i : Nat) (g : gpio_sifive_t)
    (hi : i < 32) (hne : i ≠ pin) :
    (config_interrupt pin flags g).2.rise_ie.testBit i = g.rise_ie.testBit i := by
  simp only [config_interrupt]
  split_ifs <;>
    simp [testBit_set_other _ _ _ hne, testBit_clear_other _ _ _ hi hne]

theorem config_interrupt_fall_ie_frame (pin flags i : Nat) (g : gpio_sifive_t)
    (hi : i < 32) (hne : i ≠ pin) :
    (config_interrupt pin flags g).2.fall_ie.testBit i = g.fall_ie.testBit i := by
  simp only [config_interrupt]
  split_ifs <;>
    simp [testBit_set_other _ _ _ hne, testBit_clear_other _ _ _ hi hne]

theorem config_interrupt_high_ie_frame (pin flags i : Nat) (g : gpio_sifive_t)
    (hi : i < 32) (hne : i ≠ pin) :
    (config_interrupt pin flags g).2.high_ie.testBit i = g.high_ie.testBit i := by
  simp only [config_interrupt]
  split_ifs <;>
    simp [testBit_set_other _ _ _ hne, testBit_clear_other _ _ _ hi hne]

theorem config_interrupt_low_ie_frame (pin flags i : Nat) (g : gpio_sifive_t)
    (hi : i < 32) (hne : i ≠ pin) :
    (config_interrupt pin flags g).2.low_ie.testBit i = g.low_ie.testBit i := by
  simp only [config_interrupt]
  split_ifs <;>
    simp [testBit_set_other _ _ _ hne, testBit_clear_other _ _ _ hi hne]

theorem config_eq_notsup (access_op pin flags : Nat) (g : gpio_sifive_t)
    (h : access_op ≠ GPIO_ACCESS_BY_PIN) :
    gpio_sifive_config access_op pin flags g = (Except.error Errno.ENOTSUP, g) := by
  simp only [gpio_sifive_config]
  rw [if_pos h]

theorem config_eq_out_of_range (pin flags : Nat) (g : gpio_sifive_t)
    (h : SIFIVE_PINMUX_PINS ≤ pin) :
    gpio_sifive_config GPIO_ACCESS_BY_PIN pin flags g =
      (Except.error Errno.EINVAL, g) := by
  simp only [gpio_sifive_config]
  rw [if_neg (fun hn => hn rfl), if_pos h]

theorem config_eq_dir_out (pin flags : Nat) (g : gpio_sifive_t)
    (hpin : pin < 32) (hdir : flags &&& GPIO_DIR_OUT ≠ 0) :
    gpio_sifive_config GPIO_ACCESS_BY_PIN pin flags g =
      config_interrupt pin flags { g with
        in_en  := g.in_en &&& compl32 (BIT pin),
        out_en := g.out_en ||| BIT pin,
        invert := if flags &&& GPIO_POL_INV ≠ 0 then g.invert ||| BIT pin
                  else g.invert &&& compl32 (BIT pin) } := by
  simp only [gpio_sifive_config]
  rw [if_neg (fun hn => hn rfl),
    if_neg (show ¬SIFIVE_PINMUX_PINS ≤ pin by simp only [SIFIVE_PINMUX_PINS]; omega),
    if_pos hdir]

theorem config_eq_in_polinv (pin flags : Nat) (g : gpio_sifive_t)
    (hpin : pin < 32) (hdir : flags &&& GPIO_DIR_OUT = 0)
    (hpol : flags &&& GPIO_POL_INV ≠ 0) :
    gpio_sifive_config GPIO_ACCESS_BY_PIN pin flags g =
      (Except.error Errno.EINVAL, { g with
        out_en := g.out_en &&& compl32 (BIT pin),
        in_en  := g.in_en ||| BIT pin }) := by
  simp only [gpio_sifive_config]
  rw [if_neg (fun hn => hn rfl),
    if_neg (show ¬SIFIVE_PINMUX_PINS ≤ pin by simp only [SIFIVE_PINMUX_PINS]; omega),
    if_neg (fun hn => hn hdir), if_pos hpol]

theorem config_eq_in_pulldown (pin flags : Nat) (g : gpio_sifive_t)
    (hpin : pin < 32) (hdir : flags &&& GPIO_DIR_OUT = 0)
    (hpol : flags &&& GPIO_POL_INV = 0)
    (hpd : flags &&& GPIO_PUD_MASK = GPIO_PUD_PULL_DOWN) :
    gpio_sifive_config GPIO_ACCESS_BY_PIN pin flags g =
      (Except.error Errno.EINVAL, { g with
        out_en := g.out_en &&& compl32 (BIT pin),
        in_en  := g.in_en ||| BIT pin }) := by
  simp only [gpio_sifive_config]
  rw [if_neg (fun hn => hn rfl),
    if_neg (show ¬SIFIVE_PINMUX_PINS ≤ pin by simp only [SIFIVE_PINMUX_PINS]; omega),
    if_neg (fun hn => hn hdir), if_neg (fun hn => hn hpol), if_pos hpd]

theorem config_eq_in (pin flags : Nat) (g : gpio_sifive_t)
    (hpin : pin < 32) (hdir : flags &&& GPIO_DIR_OUT = 0)
    (hpol : flags &&& GPIO_POL_INV = 0)
    (hpd : flags &&& GPIO_PUD_MASK ≠ GPIO_PUD_PULL_DOWN) :
    gpio_sifive_config GPIO_ACCESS_BY_PIN pin flags g =
      config_interrupt pin flags { g with
        out_en := g.out_en &&& compl32 (BIT pin),
        in_en  := g.in_en ||| BIT pin,
        pue    := if flags &&& GPIO_PUD_MASK = GPIO_PUD_PULL_UP then
                    g.pue ||| BIT pin
                  else g.pue &&& compl32 (BIT pin) } := by
  simp only [gpio_sifive_config]
  rw [if_neg (fun hn => hn rfl),
    if_neg (show ¬SIFIVE_PINMUX_PINS ≤ pin by simp only [SIFIVE_PINMUX_PINS]; omega),
    if_neg (fun hn => hn hdir), if_neg (fun hn => hn hpol), if_neg hpd]

/-! ### Claim theorems -/

/-- **C3.** For every valid pin, a successful `gpio_sifive_config` with
output direction leaves the pin's input-enable bit cleared and its
output-enable bit set; with input direction it leaves the output-enable bit
cleared and the input-enable bit set; and after any successful configuration
the two bits are never both set for that pin. -/
theorem config_direction_exclusive (pin flags : Nat) (g : gpio_sifive_t)
    (hpin : pin < 32)
    (hok : (gpio_sifive_config GPIO_ACCESS_BY_PIN pin flags g).1 = Except.ok ()) :
    (flags &&& GPIO_DIR_OUT ≠ 0 →
      (gpio_sifive_config GPIO_ACCESS_BY_PIN pin flags g).2.in_en.testBit pin = false ∧
      (gpio_sifive_config GPIO_ACCESS_BY_PIN pin flags g).2.out_en.testBit pin = true) ∧
    (flags &&& GPIO_DIR_OUT = 0 →
      (gpio_sifive_config GPIO_ACCESS_BY_PIN pin flags g).2.out_en.testBit pin = false ∧
      (gpio_sifive_config GPIO_ACCESS_BY_PIN pin flags g).2.in_en.testBit pin = true) ∧
    ¬((gpio_sifive_config GPIO_ACCESS_BY_PIN pin flags g).2.in_en.testBit pin = true ∧
      (gpio_sifive_config GPIO_ACCESS_BY_PIN pin flags g).2.out_en.testBit pin = true) := by
  by_cases hdir : flags &&& GPIO_DIR_OUT ≠ 0
  · rw [config_eq_dir_out pin flags g hpin hdir]
    refine ⟨fun _ => ?_, fun h0 => absurd h0 hdir, ?_⟩ <;>
      simp [config_interrupt_in_en, config_interrupt_out_en,
        testBit_compl32, testBit_BIT, hpin]
  · push_neg at hdir
    by_cases hpol : flags &&& GPIO_POL_INV ≠ 0
    · rw [config_eq_in_polinv pin flags g hpin hdir hpol] at hok
      exact absurd hok (by simp)
    · push_neg at hpol
      by_cases hpd : flags &&& GPIO_PUD_MASK = GPIO_PUD_PULL_DOWN
      · rw [config_eq_in_pulldown pin flags g hpin hdir hpol hpd] at hok
        exact absurd hok (by simp)
      · rw [config_eq_in pin flags g hpin hdir hpol hpd]
        refine ⟨fun h0 => absurd hdir h0, fun _ => ?_, ?_⟩ <;>
          simp [config_interrupt_in_en, config_interrupt_out_en,
            testBit_compl32, testBit_BIT, hpin]

/-- Witness for `config_direction_exclusive` at pin 3, output direction,
starting from the all-zero state. -/
theorem config_direction_exclusive_witness :
    (gpio_sifive_config GPIO_ACCESS_BY_PIN 3 GPIO_DIR_OUT regs0).2.in_en.testBit 3 = false ∧
    (gpio_sifive_config GPIO_ACCESS_BY_PIN 3 GPIO_DIR_OUT regs0).2.out_en.testBit 3 = true :=
  (config_direction_exclusive 3 GPIO_DIR_OUT regs0 (by decide) (by rfl)).1 (by decide)

/-- **C4.** For every valid pin, a successful interrupt configuration with
edge trigger clears both level-interrupt-enable bits and then sets both
rise- and fall-enable for double-edge, only rise-enable for active-high,
and only fall-enable otherwise; with level trigger it clears both
edge-interrupt-enable bits and then sets high-enable and clears low-enable
for active-high, else clears high-enable and sets low-enable; afterwards at
most one trigger-class family (edge or level) is armed for the pin. -/
theorem config_int_trigger_pattern (pin flags : Nat) (g : gpio_sifive_t)
    (hpin : pin < 32) (hint : flags &&& GPIO_INT ≠ 0)
    (hok : (gpio_sifive_config GPIO_ACCESS_BY_PIN pin flags g).1 = Except.ok ()) :
    (flags &&& GPIO_INT_EDGE ≠ 0 →
      (gpio_sifive_config GPIO_ACCESS_BY_PIN pin flags g).2.high_ie.testBit pin = false ∧
      (gpio_sifive_config GPIO_ACCESS_BY_PIN pin flags g).2.low_ie.testBit pin = false ∧
      (flags &&& GPIO_INT_DOUBLE_EDGE ≠ 0 →
        (gpio_sifive_config GPIO_ACCESS_BY_PIN pin flags g).2.rise_ie.testBit pin = true ∧
        (gpio_sifive_config GPIO_ACCESS_BY_PIN pin flags g).2.fall_ie.testBit pin = true) ∧
      (flags &&& GPIO_INT_DOUBLE_EDGE = 0 → flags &&& GPIO_INT_ACTIVE_HIGH ≠ 0 →
        (gpio_sifive_config GPIO_ACCESS_BY_PIN pin flags g).2.rise_ie.testBit pin = true ∧
        (gpio_sifive_config GPIO_ACCESS_BY_PIN pin flags g).2.fall_ie.testBit pin = false) ∧
      (flags &&& GPIO_INT_DOUBLE_EDGE = 0 → flags &&& GPIO_INT_ACTIVE_HIGH = 0 →
        (gpio_sifive_config GPIO_ACCESS_BY_PIN pin flags g).2.rise_ie.testBit pin = false ∧
        (gpio_sifive_config GPIO_ACCESS_BY_PIN pin flags g).2.fall_ie.testBit pin = true)) ∧
    (flags &&& GPIO_INT_EDGE = 0 →
      (gpio_sifive_config GPIO_ACCESS_BY_PIN pin flags g).2.rise_ie.testBit pin = false ∧
      (gpio_sifive_config GPIO_ACCESS_BY_PIN pin flags g).2.fall_ie.testBit pin = false ∧
      (flags &&& GPIO_INT_ACTIVE_HIGH ≠ 0 →
        (gpio_sifive_config GPIO_ACCESS_BY_PIN pin flags g).2.high_ie.testBit pin = true ∧
        (gpio_sifive_config GPIO_ACCESS_BY_PIN pin flags g).2.low_ie.testBit pin = false) ∧
      (flags &&& GPIO_INT_ACTIVE_HIGH = 0 →
        (gpio_sifive_config GPIO_ACCESS_BY_PIN pin flags g).2.high_ie.testBit pin = false ∧
        (gpio_sifive_config GPIO_ACCESS_BY_PIN pin flags g).2.low_ie.testBit pin = true)) ∧
    (((gpio_sifive_config GPIO_ACCESS_BY_PIN pin flags g).2.high_ie.testBit pin = false ∧
      (gpio_sifive_config GPIO_ACCESS_BY_PIN pin flags g).2.low_ie.testBit pin = false) ∨
     ((gpio_sifive_config GPIO_ACCESS_BY_PIN pin flags g).2.rise_ie.testBit pin = false ∧
      (gpio_sifive_config GPIO_ACCESS_BY_PIN pin flags g).2.fall_ie.testBit pin = false)) := by
  by_cases hdir : flags &&& GPIO_DIR_OUT = 0
  · by_cases hpol : flags &&& GPIO_POL_INV = 0
    · by_cases hpd : flags &&& GPIO_PUD_MASK = GPIO_PUD_PULL_DOWN
      · rw [config_eq_in_pulldown pin flags g hpin hdir hpol hpd] at hok
        exact absurd hok (by simp)
      · rw [config_eq_in pin flags g hpin hdir hpol hpd]
        by_cases hedge : flags &&& GPIO_INT_EDGE = 0
        · by_cases hah : flags &&& GPIO_INT_ACTIVE_HIGH = 0
          · rw [config_interrupt_level_low pin flags _ hint hdir hedge hah]
            simp [hedge, hah, testBit_compl32, testBit_BIT, hpin]
          · rw [config_interrupt_level_high pin flags _ hint hdir hedge hah]
            simp [hedge, hah, testBit_compl32, testBit_BIT, hpin]
        · by_cases hdbl : flags &&& GPIO_INT_DOUBLE_EDGE = 0
          · by_cases hah : flags &&& GPIO_INT_ACTIVE_HIGH = 0
            · rw [config_interrupt_edge_low pin flags _ hint hdir hedge hdbl hah]
              simp [hedge, hdbl, hah, testBit_compl32, testBit_BIT, hpin]
            · rw [config_interrupt_edge_high pin flags _ hint hdir hedge hdbl hah]
              simp [hedge, hdbl, hah, testBit_compl32, testBit_BIT, hpin]
          · rw [config_interrupt_edge_double pin flags _ hint hdir hedge hdbl]
            simp [hedge, hdbl, testBit_compl32, testBit_BIT, hpin]
    · rw [config_eq_in_polinv pin flags g hpin hdir hpol] at hok
      exact absurd hok (by simp)
  · rw [config_eq_dir_out pin flags g hpin hdir,
      config_interrupt_int_out pin flags _ hint hdir] at hok
    exact absurd hok (by simp)

/-- Witness for `config_int_trigger_pattern`: pin 3 configured input,
interrupt, double-edge, starting from the all-zero state. -/
theorem config_int_trigger_pattern_witness :
    (gpio_sifive_config GPIO_ACCESS_BY_PIN 3
      (GPIO_INT ||| GPIO_INT_EDGE ||| GPIO_INT_DOUBLE_EDGE) regs0).2.high_ie.testBit 3 = false ∧
    (gpio_sifive_config GPIO_ACCESS_BY_PIN 3
      (GPIO_INT ||| GPIO_INT_EDGE ||| GPIO_INT_DOUBLE_EDGE) regs0).2.low_ie.testBit 3 = false ∧
    (gpio_sifive_config GPIO_ACCESS_BY_PIN 3
      (GPIO_INT ||| GPIO_INT_EDGE ||| GPIO_INT_DOUBLE_EDGE) regs0).2.rise_ie.testBit 3 = true ∧
    (gpio_sifive_config GPIO_ACCESS_BY_PIN 3
      (GPIO_INT ||| GPIO_INT_EDGE ||| GPIO_INT_DOUBLE_EDGE) regs0).2.fall_ie.testBit 3 = true := by
  have h := config_int_trigger_pattern 3
    (GPIO_INT ||| GPIO_INT_EDGE ||| GPIO_INT_DOUBLE_EDGE) regs0
    (by decide) (by decide) (by rfl)
  have he := h.1 (by decide)
  exact ⟨he.1, he.2.1, he.2.2.1 (by decide)⟩

/-- **C8.** `gpio_sifive_init` zeroes all eight mutable configuration
registers (input-enable, output-enable, pull-up-enable, the four
interrupt-enable registers and invert), so after init no pin has a
direction enabled, a pull-up, an inversion, or any interrupt trigger class
armed. -/
theorem init_zeroes_config_registers (g : gpio_sifive_t) :
    (gpio_sifive_init g).2.in_en = 0 ∧ (gpio_sifive_init g).2.out_en = 0 ∧
    (gpio_sifive_init g).2.pue = 0 ∧ (gpio_sifive_init g).2.rise_ie = 0 ∧
    (gpio_sifive_init g).2.fall_ie = 0 ∧ (gpio_sifive_init g).2.high_ie = 0 ∧
    (gpio_sifive_init g).2.low_ie = 0 ∧ (gpio_sifive_init g).2.invert = 0 ∧
    ∀ pin : Nat,
      (gpio_sifive_init g).2.in_en.testBit pin = false ∧
      (gpio_sifive_init g).2.out_en.testBit pin = false ∧
      (gpio_sifive_init g).2.pue.testBit pin = false ∧
      (gpio_sifive_init g).2.rise_ie.testBit pin = false ∧
      (gpio_sifive_init g).2.fall_ie.testBit pin = false ∧
      (gpio_sifive_init g).2.high_ie.testBit pin = false ∧
      (gpio_sifive_init g).2.low_ie.testBit pin = false ∧
      (gpio_sifive_init g).2.invert.testBit pin = false := by
  simp [gpio_sifive_init]

/-- **C5.** `gpio_sifive_write` fails with `-EINVAL` (OutOfRange) when
`pin ≥ SIFIVE_PINMUX_PINS`; fails with `-EINVAL` (InvalidState) when the
pin's input-enable bit is set, leaving the whole register state (in
particular `out_val`) unchanged; otherwise it succeeds, sets the pin's
output-value bit when `value` is nonzero and clears it when `value` is
zero, and leaves every other pin's output-value bit unchanged. -/
theorem write_contract (pin value : Nat) (g : gpio_sifive_t) :
    (SIFIVE_PINMUX_PINS ≤ pin →
      gpio_sifive_write GPIO_ACCESS_BY_PIN pin value g =
        (Except.error Errno.EINVAL, g)) ∧
    (pin < 32 → g.in_en.testBit pin = true →
      gpio_sifive_write GPIO_ACCESS_BY_PIN pin value g =
        (Except.error Errno.EINVAL, g)) ∧
    (pin < 32 → g.in_en.testBit pin = false →
      (gpio_sifive_write GPIO_ACCESS_BY_PIN pin value g).1 = Except.ok () ∧
      (gpio_sifive_write GPIO_ACCESS_BY_PIN pin value g).2.out_val.testBit pin =
        decide (value ≠ 0) ∧
      (∀ i : Nat, i < 32 → i ≠ pin →
        (gpio_sifive_write GPIO_ACCESS_BY_PIN pin value g).2.out_val.testBit i =
          g.out_val.testBit i)) := by
  refine ⟨fun h => ?_, fun h hin => ?_, fun h hin => ?_⟩
  · simp only [gpio_sifive_write]
    rw [if_neg (fun hn => hn rfl), if_pos h]
  · simp only [gpio_sifive_write]
    rw [if_neg (fun hn => hn rfl),
      if_neg (show ¬SIFIVE_PINMUX_PINS ≤ pin by simp only [SIFIVE_PINMUX_PINS]; omega),
      if_pos ((land_BIT_ne_zero_iff g.in_en pin).mpr hin)]
  · have hz : g.in_en &&& BIT pin = 0 := (land_BIT_eq_zero_iff g.in_en pin).mpr hin
    simp only [gpio_sifive_write]
    rw [if_neg (fun hn => hn rfl),
      if_neg (show ¬SIFIVE_PINMUX_PINS ≤ pin by simp only [SIFIVE_PINMUX_PINS]; omega),
      if_neg (fun hn => hn hz)]
    by_cases hv : value ≠ 0
    · rw [if_pos hv]
      exact ⟨rfl, by simp [testBit_BIT, hv],
        fun i hi hne => by simp [testBit_set_other _ _ _ hne]⟩
    · rw [if_neg hv]
      push_neg at hv
      exact ⟨rfl, by simp [testBit_compl32, testBit_BIT, h, hv],
        fun i hi hne => by simp [testBit_clear_other _ _ _ hi hne]⟩

/-- Witness for `write_contract`: writing 1 to never-configured pin 4 of the
all-zero state would succeed; here pin 5 is configured as input, so the
write fails and the state is unchanged. -/
theorem write_contract_witness :
    gpio_sifive_write GPIO_ACCESS_BY_PIN 5 1 { regs0 with in_en := BIT 5 } =
      (Except.error Errno.EINVAL, { regs0 with in_en := BIT 5 }) :=
  (write_contract 5 1 { regs0 with in_en := BIT 5 }).2.1 (by decide) (by decide)

/-- **C6.** `gpio_sifive_read` fails with `-EINVAL` (OutOfRange) when
`pin ≥ SIFIVE_PINMUX_PINS`; otherwise, for every state of the two value
bits, it returns the pin's output-value bit when the pin's output-enable
bit is set and the pin's input-value bit when it is not, and it modifies
no register. -/
theorem read_contract (pin : Nat) (g : gpio_sifive_t) :
    (SIFIVE_PINMUX_PINS ≤ pin →
      gpio_sifive_read GPIO_ACCESS_BY_PIN pin g = (Except.error Errno.EINVAL, g)) ∧
    (pin < 32 →
      (gpio_sifive_read GPIO_ACCESS_BY_PIN pin g).1 =
        Except.ok (if g.out_en.testBit pin = true then
                     (if g.out_val.testBit pin = true then 1 else 0)
                   else
                     (if g.in_val.testBit pin = true then 1 else 0)) ∧
      (gpio_sifive_read GPIO_ACCESS_BY_PIN pin g).2 = g) := by
  refine ⟨fun h => ?_, fun h => ?_⟩
  · simp only [gpio_sifive_read]
    rw [if_neg (fun hn => hn rfl), if_pos h]
  · simp only [gpio_sifive_read, land_BIT_ne_zero_iff]
    rw [if_neg (fun hn => hn rfl),
      if_neg (show ¬SIFIVE_PINMUX_PINS ≤ pin by simp only [SIFIVE_PINMUX_PINS]; omega)]
    split_ifs <;> simp_all

/-- Witness for `read_contract`: pin 2 configured as output with its
output-value bit set reads back 1 without modifying the state. -/
theorem read_contract_witness :
    (gpio_sifive_read GPIO_ACCESS_BY_PIN 2
      { regs0 with out_en := BIT 2, out_val := BIT 2 }).1 = Except.ok 1 ∧
    (gpio_sifive_read GPIO_ACCESS_BY_PIN 2
      { regs0 with out_en := BIT 2, out_val := BIT 2 }).2 =
      { regs0 with out_en := BIT 2, out_val := BIT 2 } := by
  have h := (read_contract 2 { regs0 with out_en := BIT 2, out_val := BIT 2 }).2 (by decide)
  refine ⟨?_, h.2⟩
  rw [h.1]
  simp [testBit_BIT]

/-- **C9.** For every valid pin in per-pin addressing mode,
`gpio_sifive_write` fails if and only if the pin's input-enable bit is set;
in particular on a pin whose input-enable and output-enable bits are both
clear (e.g. any never-configured pin right after init) the write succeeds
and drives the output-value bit even though the pin was never configured
as an output. -/
theorem write_fails_iff_input_enabled (pin value : Nat) (g : gpio_sifive_t)
    (hpin : pin < 32) :
    ((∃ e, (gpio_sifive_write GPIO_ACCESS_BY_PIN pin value g).1 = Except.error e) ↔
      g.in_en.testBit pin = true) ∧
    (g.in_en.testBit pin = false → g.out_en.testBit pin = false →
      (gpio_sifive_write GPIO_ACCESS_BY_PIN pin value g).1 = Except.ok () ∧
      (gpio_sifive_write GPIO_ACCESS_BY_PIN pin value g).2.out_val.testBit pin =
        decide (value ≠ 0)) := by
  have hc := write_contract pin value g
  constructor
  · constructor
    · intro he
      by_contra hnot
      have hin : g.in_en.testBit pin = false := by
        cases hfl : g.in_en.testBit pin
        · rfl
        · exact absurd hfl hnot
      have := (hc.2.2 hpin hin).1
      obtain ⟨e, he⟩ := he
      rw [this] at he
      exact absurd he (by simp)
    · intro hin
      exact ⟨Errno.EINVAL, by rw [hc.2.1 hpin hin]⟩
  · intro hin _
    exact ⟨(hc.2.2 hpin hin).1, (hc.2.2 hpin hin).2.1⟩

/-- Witness for `write_fails_iff_input_enabled`: pin 4 of the all-zero
(post-init, never-configured) state: the write succeeds and sets the
output-value bit. -/
theorem write_fails_iff_input_enabled_witness :
    (gpio_sifive_write GPIO_ACCESS_BY_PIN 4 1 regs0).1 = Except.ok () ∧
    (gpio_sifive_write GPIO_ACCESS_BY_PIN 4 1 regs0).2.out_val.testBit 4 =
      decide ((1 : Nat) ≠ 0) :=
  (write_fails_iff_input_enabled 4 1 regs0 (by decide)).2 (by decide) (by decide)

/-- **C2.** For every valid pin, one invocation of the interrupt dispatcher
fires the matching callbacks and then checks the four pending-status
registers in the fixed priority order rise, fall, high, low, writes the
pin's single-bit mask back to the *first* register whose pin bit is set
(write-1-to-clear) and stops after that first match: whichever register
matches first has exactly the pin's bit cleared (its other bits unchanged)
while the three remaining pending registers are wholly unchanged, whatever
their own pin bits are; if no register matches, nothing changes; and in the
rise-only state, exactly the rise bit is cleared and the fall-, high- and
low-pending bits for the pin stay clear. -/
theorem irq_handler_first_match (cbs : List Nat) (pin : Nat) (g : gpio_sifive_t)
    (hpin : pin < 32) :
    (gpio_sifive_irq_handler cbs pin g).1 = gpio_fire_callbacks cbs (BIT pin) ∧
    (g.rise_ip.testBit pin = true →
      (gpio_sifive_irq_handler cbs pin g).2.rise_ip.testBit pin = false ∧
      (∀ i : Nat, i < 32 → i ≠ pin →
        (gpio_sifive_irq_handler cbs pin g).2.rise_ip.testBit i = g.rise_ip.testBit i) ∧
      (gpio_sifive_irq_handler cbs pin g).2.fall_ip = g.fall_ip ∧
      (gpio_sifive_irq_handler cbs pin g).2.high_ip = g.high_ip ∧
      (gpio_sifive_irq_handler cbs pin g).2.low_ip = g.low_ip) ∧
    (g.rise_ip.testBit pin = false → g.fall_ip.testBit pin = true →
      (gpio_sifive_irq_handler cbs pin g).2.fall_ip.testBit pin = false ∧
      (∀ i : Nat, i < 32 → i ≠ pin →
        (gpio_sifive_irq_handler cbs pin g).2.fall_ip.testBit i = g.fall_ip.testBit i) ∧
      (gpio_sifive_irq_handler cbs pin g).2.rise_ip = g.rise_ip ∧
      (gpio_sifive_irq_handler cbs pin g).2.high_ip = g.high_ip ∧
      (gpio_sifive_irq_handler cbs pin g).2.low_ip = g.low_ip) ∧
    (g.rise_ip.testBit pin = false → g.fall_ip.testBit pin = false →
     g.high_ip.testBit pin = true →
      (gpio_sifive_irq_handler cbs pin g).2.high_ip.testBit pin = false ∧
      (∀ i : Nat, i < 32 → i ≠ pin →
        (gpio_sifive_irq_handler cbs pin g).2.high_ip.testBit i = g.high_ip.testBit i) ∧
      (gpio_sifive_irq_handler cbs pin g).2.rise_ip = g.rise_ip ∧
      (gpio_sifive_irq_handler cbs pin g).2.fall_ip = g.fall_ip ∧
      (gpio_sifive_irq_handler cbs pin g).2.low_ip = g.low_ip) ∧
    (g.rise_ip.testBit pin = false → g.fall_ip.testBit pin = false →
     g.high_ip.testBit pin = false → g.low_ip.testBit pin = true →
      (gpio_sifive_irq_handler cbs pin g).2.low_ip.testBit pin = false ∧
      (∀ i : Nat, i < 32 → i ≠ pin →
        (gpio_sifive_irq_handler cbs pin g).2.low_ip.testBit i = g.low_ip.testBit i) ∧
      (gpio_sifive_irq_handler cbs pin g).2.rise_ip = g.rise_ip ∧
      (gpio_sifive_irq_handler cbs pin g).2.fall_ip = g.fall_ip ∧
      (gpio_sifive_irq_handler cbs pin g).2.high_ip = g.high_ip) ∧
    (g.rise_ip.testBit pin = false → g.fall_ip.testBit pin = false →
     g.high_ip.testBit pin = false → g.low_ip.testBit pin = false →
      (gpio_sifive_irq_handler cbs pin g).2 = g) ∧
    (g.rise_ip.testBit pin = true → g.fall_ip.testBit pin = false →
     g.high_ip.testBit pin = false → g.low_ip.testBit pin = false →
      (gpio_sifive_irq_handler cbs pin g).2.rise_ip.testBit pin = false ∧
      (gpio_sifive_irq_handler cbs pin g).2.fall_ip.testBit pin = false ∧
      (gpio_sifive_irq_handler cbs pin g).2.high_ip.testBit pin = false ∧
      (gpio_sifive_irq_handler cbs pin g).2.low_ip.testBit pin = false) := by
  have hfired : (gpio_sifive_irq_handler cbs pin g).1 =
      gpio_fire_callbacks cbs (BIT pin) := by
    simp only [gpio_sifive_irq_handler]
    split_ifs <;> rfl
  refine ⟨hfired, fun hr => ?_, fun hr hf => ?_, fun hr hf hh => ?_,
    fun hr hf hh hl => ?_, fun hr hf hh hl => ?_, fun hr hf hh hl => ?_⟩
  · simp only [gpio_sifive_irq_handler]
    rw [if_pos ((land_BIT_ne_zero_iff _ _).mpr hr)]
    exact ⟨by simp [w1c_store, testBit_compl32, testBit_BIT, hpin],
      fun i hi hne => by simp [w1c_store, testBit_clear_other _ _ _ hi hne],
      rfl, rfl, rfl⟩
  · simp only [gpio_sifive_irq_handler]
    rw [if_neg (fun hn => hn ((land_BIT_eq_zero_iff _ _).mpr hr)),
      if_pos ((land_BIT_ne_zero_iff _ _).mpr hf)]
    exact ⟨by simp [w1c_store, testBit_compl32, testBit_BIT, hpin],
      fun i hi hne => by simp [w1c_store, testBit_clear_other _ _ _ hi hne],
      rfl, rfl, rfl⟩
  · simp only [gpio_sifive_irq_handler]
    rw [if_neg (fun hn => hn ((land_BIT_eq_zero_iff _ _).mpr hr)),
      if_neg (fun hn => hn ((land_BIT_eq_zero_iff _ _).mpr hf)),
      if_pos ((land_BIT_ne_zero_iff _ _).mpr hh)]
    exact ⟨by simp [w1c_store, testBit_compl32, testBit_BIT, hpin],
      fun i hi hne => by simp [w1c_store, testBit_clear_other _ _ _ hi hne],
      rfl, rfl, rfl⟩
  · simp only [gpio_sifive_irq_handler]
    rw [if_neg (fun hn => hn ((land_BIT_eq_zero_iff _ _).mpr hr)),
      if_neg (fun hn => hn ((land_BIT_eq_zero_iff _ _).mpr hf)),
      if_neg (fun hn => hn ((land_BIT_eq_zero_iff _ _).mpr hh)),
      if_pos ((land_BIT_ne_zero_iff _ _).mpr hl)]
    exact ⟨by simp [w1c_store, testBit_compl32, testBit_BIT, hpin],
      fun i hi hne => by simp [w1c_store, testBit_clear_other _ _ _ hi hne],
      rfl, rfl, rfl⟩
  · simp only [gpio_sifive_irq_handler]
    rw [if_neg (fun hn => hn ((land_BIT_eq_zero_iff _ _).mpr hr)),
      if_neg (fun hn => hn ((land_BIT_eq_zero_iff _ _).mpr hf)),
      if_neg (fun hn => hn ((land_BIT_eq_zero_iff _ _).mpr hh)),
      if_neg (fun hn => hn ((land_BIT_eq_zero_iff _ _).mpr hl))]
  · simp only [gpio_sifive_irq_handler]
    rw [if_pos ((land_BIT_ne_zero_iff _ _).mpr hr)]
    exact ⟨by simp [w1c_store, testBit_compl32, testBit_BIT, hpin], hf, hh, hl⟩

/-- Witness for `irq_handler_first_match`: pin 3 of a multi-pending state
(rise-pending bits `0xFF`, fall-pending bits `0xFF`, high- and low-pending
bit 3 set): the rise register matches first, so only its bit 3 is cleared
and the fall/high/low-pending registers are untouched even though their
pin-3 bits are also set. -/
theorem irq_handler_first_match_witness :
    (gpio_sifive_irq_handler [] 3
      { regs0 with rise_ip := 255, fall_ip := 255, high_ip := 8, low_ip := 8 }).2.rise_ip.testBit 3 = false ∧
    (gpio_sifive_irq_handler [] 3
      { regs0 with rise_ip := 255, fall_ip := 255, high_ip := 8, low_ip := 8 }).2.fall_ip = 255 ∧
    (gpio_sifive_irq_handler [] 3
      { regs0 with rise_ip := 255, fall_ip := 255, high_ip := 8, low_ip := 8 }).2.high_ip = 8 ∧
    (gpio_sifive_irq_handler [] 3
      { regs0 with rise_ip := 255, fall_ip := 255, high_ip := 8, low_ip := 8 }).2.low_ip = 8 := by
  have h := (irq_handler_first_match [] 3
    { regs0 with rise_ip := 255, fall_ip := 255, high_ip := 8, low_ip := 8 }
    (by decide)).2.1 (by decide)
  exact ⟨h.1, h.2.2.1, h.2.2.2.1, h.2.2.2.2⟩

/-- **C10.** If none of the four pending-status registers has the
triggering pin's bit set, the dispatcher writes to no pending register: it
still invokes the matching callbacks and returns with all registers
unchanged. -/
theorem irq_handler_no_pending (cbs : List Nat) (pin : Nat) (g : gpio_sifive_t)
    (hr : g.rise_ip.testBit pin = false)
    (hf : g.fall_ip.testBit pin = false)
    (hh : g.high_ip.testBit pin = false)
    (hl : g.low_ip.testBit pin = false) :
    gpio_sifive_irq_handler cbs pin g = (gpio_fire_callbacks cbs (BIT pin), g) := by
  simp only [gpio_sifive_irq_handler]
  rw [if_neg (fun hn => hn ((land_BIT_eq_zero_iff _ _).mpr hr)),
    if_neg (fun hn => hn ((land_BIT_eq_zero_iff _ _).mpr hf)),
    if_neg (fun hn => hn ((land_BIT_eq_zero_iff _ _).mpr hh)),
    if_neg (fun hn => hn ((land_BIT_eq_zero_iff _ _).mpr hl))]

/-- **C7.** For every valid pin and any flags, `gpio_sifive_config` changes
at most the bit at index `pin` of each register: for every other bit index
`i < 32`, every bit of every register is exactly the same after the call as
before it. -/
theorem config_touches_only_pin (access_op pin flags : Nat) (g : gpio_sifive_t)
    (hpin : pin < 32) (i : Nat) (hi : i < 32) (hne : i ≠ pin) :
    (gpio_sifive_config access_op pin flags g).2.in_val.testBit i = g.in_val.testBit i ∧
    (gpio_sifive_config access_op pin flags g).2.in_en.testBit i = g.in_en.testBit i ∧
    (gpio_sifive_config access_op pin flags g).2.out_en.testBit i = g.out_en.testBit i ∧
    (gpio_sifive_config access_op pin flags g).2.out_val.testBit i = g.out_val.testBit i ∧
    (gpio_sifive_config access_op pin flags g).2.pue.testBit i = g.pue.testBit i ∧
    (gpio_sifive_config access_op pin flags g).2.ds.testBit i = g.ds.testBit i ∧
    (gpio_sifive_config access_op pin flags g).2.rise_ie.testBit i = g.rise_ie.testBit i ∧
    (gpio_sifive_config access_op pin flags g).2.rise_ip.testBit i = g.rise_ip.testBit i ∧
    (gpio_sifive_config access_op pin flags g).2.fall_ie.testBit i = g.fall_ie.testBit i ∧
    (gpio_sifive_config access_op pin flags g).2.fall_ip.testBit i = g.fall_ip.testBit i ∧
    (gpio_sifive_config access_op pin flags g).2.high_ie.testBit i = g.high_ie.testBit i ∧
    (gpio_sifive_config access_op pin flags g).2.high_ip.testBit i = g.high_ip.testBit i ∧
    (gpio_sifive_config access_op pin flags g).2.low_ie.testBit i = g.low_ie.testBit i ∧
    (gpio_sifive_config access_op pin flags g).2.low_ip.testBit i = g.low_ip.testBit i ∧
    (gpio_sifive_config access_op pin flags g).2.iof_en.testBit i = g.iof_en.testBit i ∧
    (gpio_sifive_config access_op pin flags g).2.iof_sel.testBit i = g.iof_sel.testBit i ∧
    (gpio_sifive_config access_op pin flags g).2.invert.testBit i = g.invert.testBit i := by
  by_cases haop : access_op = GPIO_ACCESS_BY_PIN
  · subst haop
    by_cases hdir : flags &&& GPIO_DIR_OUT ≠ 0
    · rw [config_eq_dir_out pin flags g hpin hdir]
      by_cases hpol : flags &&& GPIO_POL_INV ≠ 0 <;>
        simp [hpol, config_interrupt_in_val, config_interrupt_in_en,
          config_interrupt_out_en, config_interrupt_out_val, config_interrupt_pue,
          config_interrupt_ds, config_interrupt_rise_ip, config_interrupt_fall_ip,
          config_interrupt_high_ip, config_interrupt_low_ip, config_interrupt_iof_en,
          config_interrupt_iof_sel, config_interrupt_invert,
          config_interrupt_rise_ie_frame _ _ _ _ hi hne,
          config_interrupt_fall_ie_frame _ _ _ _ hi hne,
          config_interrupt_high_ie_frame _ _ _ _ hi hne,
          config_interrupt_low_ie_frame _ _ _ _ hi hne,
          testBit_set_other _ _ _ hne, testBit_clear_other _ _ _ hi hne]
    · push_neg at hdir
      by_cases hpol : flags &&& GPIO_POL_INV ≠ 0
      · rw [config_eq_in_polinv pin flags g hpin hdir hpol]
        simp [testBit_set_other _ _ _ hne, testBit_clear_other _ _ _ hi hne]
      · push_neg at hpol
        by_cases hpd : flags &&& GPIO_PUD_MASK = GPIO_PUD_PULL_DOWN
        · rw [config_eq_in_pulldown pin flags g hpin hdir hpol hpd]
          simp [testBit_set_other _ _ _ hne, testBit_clear_other _ _ _ hi hne]
        · rw [config_eq_in pin flags g hpin hdir hpol hpd]
          by_cases hpu : flags &&& GPIO_PUD_MASK = GPIO_PUD_PULL_UP <;>
            simp [hpu, config_interrupt_in_val, config_interrupt_in_en,
              config_interrupt_out_en, config_interrupt_out_val, config_interrupt_pue,
              config_interrupt_ds, config_interrupt_rise_ip, config_interrupt_fall_ip,
              config_interrupt_high_ip, config_interrupt_low_ip, config_interrupt_iof_en,
              config_interrupt_iof_sel, config_interrupt_invert,
              config_interrupt_rise_ie_frame _ _ _ _ hi hne,
              config_interrupt_fall_ie_frame _ _ _ _ hi hne,
              config_interrupt_high_ie_frame _ _ _ _ hi hne,
              config_interrupt_low_ie_frame _ _ _ _ hi hne,
              testBit_set_other _ _ _ hne, testBit_clear_other _ _ _ hi hne]
  · rw [config_eq_notsup access_op pin flags g haop]
    simp

/-- Witness for `config_touches_only_pin`: configuring pin 3 as output
leaves bit 5 of every register of the all-zero state unchanged. -/
theorem config_touches_only_pin_witness :
    (gpio_sifive_config GPIO_ACCESS_BY_PIN 3 GPIO_DIR_OUT regs0).2.out_en.testBit 5 =
      regs0.out_en.testBit 5 ∧
    (gpio_sifive_config GPIO_ACCESS_BY_PIN 3 GPIO_DIR_OUT regs0).2.in_en.testBit 5 =
      regs0.in_en.testBit 5 := by
  have h := config_touches_only_pin GPIO_ACCESS_BY_PIN 3 GPIO_DIR_OUT regs0
    (by decide) 5 (by decide) (by decide)
  exact ⟨h.2.2.1, h.2.1⟩

/-- Witness for `irq_handler_no_pending`: pin 7, one registered callback
whose mask covers the pin, no pending bit set anywhere. -/
theorem irq_handler_no_pending_witness :
    gpio_sifive_irq_handler [128, 1] 7 regs0 =
      (gpio_fire_callbacks [128, 1] (BIT 7), regs0) :=
  irq_handler_no_pending [128, 1] 7 regs0 (by decide) (by decide) (by decide) (by decide)

/-- Counterexample to **C1** as stated: configuring pin 0 (currently an
output: `out_en` bit 0 set, `in_en` bit 0 clear) with input direction plus
polarity inversion returns an error, yet the call has cleared the pin's
output-enable bit and set its input-enable bit — register bits for the pin
did change on a rejected configuration. -/
theorem config_error_mutates_counterexample :
    (∃ e, (gpio_sifive_config GPIO_ACCESS_BY_PIN 0 GPIO_POL_INV regsOut0).1 =
      Except.error e) ∧
    regsOut0.out_en.testBit 0 = true ∧
    (gpio_sifive_config GPIO_ACCESS_BY_PIN 0 GPIO_POL_INV regsOut0).2.out_en.testBit 0 = false ∧
    regsOut0.in_en.testBit 0 = false ∧
    (gpio_sifive_config GPIO_ACCESS_BY_PIN 0 GPIO_POL_INV regsOut0).2.in_en.testBit 0 = true :=
  ⟨⟨Errno.EINVAL, rfl⟩, by decide, by decide, by decide, by decide⟩

/-- **C1 (amended).** When `gpio_sifive_config` returns an error: an
unsupported addressing mode or an out-of-range pin leaves every register
unchanged; for a valid pin in per-pin mode, an invalid-combination error
leaves the pull-up, all four interrupt-enable and all value/pending/IOF
registers unchanged, but the direction bits for the pin have already been
set to the requested direction, and when the rejected request had output
direction (interrupt-with-output), the invert bit has been applied too. -/
theorem config_error_effects (access_op pin flags : Nat) (g : gpio_sifive_t)
    (herr : ∃ e, (gpio_sifive_config access_op pin flags g).1 = Except.error e) :
    (access_op ≠ GPIO_ACCESS_BY_PIN →
      (gpio_sifive_config access_op pin flags g).2 = g) ∧
    (SIFIVE_PINMUX_PINS ≤ pin →
      (gpio_sifive_config access_op pin flags g).2 = g) ∧
    (access_op = GPIO_ACCESS_BY_PIN → pin < 32 →
      ((gpio_sifive_config access_op pin flags g).2.pue = g.pue ∧
       (gpio_sifive_config access_op pin flags g).2.rise_ie = g.rise_ie ∧
       (gpio_sifive_config access_op pin flags g).2.fall_ie = g.fall_ie ∧
       (gpio_sifive_config access_op pin flags g).2.high_ie = g.high_ie ∧
       (gpio_sifive_config access_op pin flags g).2.low_ie = g.low_ie ∧
       (gpio_sifive_config access_op pin flags g).2.in_val = g.in_val ∧
       (gpio_sifive_config access_op pin flags g).2.out_val = g.out_val ∧
       (gpio_sifive_config access_op pin flags g).2.ds = g.ds ∧
       (gpio_sifive_config access_op pin flags g).2.rise_ip = g.rise_ip ∧
       (gpio_sifive_config access_op pin flags g).2.fall_ip = g.fall_ip ∧
       (gpio_sifive_config access_op pin flags g).2.high_ip = g.high_ip ∧
       (gpio_sifive_config access_op pin flags g).2.low_ip = g.low_ip ∧
       (gpio_sifive_config access_op pin flags g).2.iof_en = g.iof_en ∧
       (gpio_sifive_config access_op pin flags g).2.iof_sel = g.iof_sel) ∧
      (flags &&& GPIO_DIR_OUT ≠ 0 →
        (gpio_sifive_config access_op pin flags g).2.in_en.testBit pin = false ∧
        (gpio_sifive_config access_op pin flags g).2.out_en.testBit pin = true ∧
        (gpio_sifive_config access_op pin flags g).2.invert.testBit pin =
          decide (flags &&& GPIO_POL_INV ≠ 0)) ∧
      (flags &&& GPIO_DIR_OUT = 0 →
        (gpio_sifive_config access_op pin flags g).2.out_en.testBit pin = false ∧
        (gpio_sifive_config access_op pin flags g).2.in_en.testBit pin = true ∧
        (gpio_sifive_config access_op pin flags g).2.invert = g.invert ∧
        (gpio_sifive_config access_op pin flags g).2.pue = g.pue)) := by
  by_cases haop : access_op = GPIO_ACCESS_BY_PIN
  · subst haop
    refine ⟨fun hno => absurd rfl hno,
      fun hge => by rw [config_eq_out_of_range pin flags g hge],
      fun _ hpin => ?_⟩
    by_cases hdir : flags &&& GPIO_DIR_OUT ≠ 0
    · rw [config_eq_dir_out pin flags g hpin hdir] at herr ⊢
      by_cases hint : flags &&& GPIO_INT = 0
      · rw [config_interrupt_noint _ _ _ hint] at herr
        obtain ⟨e, he⟩ := herr
        exact absurd he (by simp)
      · rw [config_interrupt_int_out _ _ _ hint hdir]
        refine ⟨⟨rfl, rfl, rfl, rfl, rfl, rfl, rfl, rfl, rfl, rfl, rfl, rfl, rfl, rfl⟩,
          fun _ => ?_, fun h0 => absurd h0 hdir⟩
        by_cases hpol : flags &&& GPIO_POL_INV ≠ 0 <;>
          simp [hpol, testBit_compl32, testBit_BIT, hpin]
    · push_neg at hdir
      by_cases hpol : flags &&& GPIO_POL_INV ≠ 0
      · rw [config_eq_in_polinv pin flags g hpin hdir hpol]
        exact ⟨⟨rfl, rfl, rfl, rfl, rfl, rfl, rfl, rfl, rfl, rfl, rfl, rfl, rfl, rfl⟩,
          fun h0 => absurd hdir h0,
          fun _ => ⟨testBit_clear_self _ _ hpin, testBit_set_self _ _, rfl, rfl⟩⟩
      · push_neg at hpol
        by_cases hpd : flags &&& GPIO_PUD_MASK = GPIO_PUD_PULL_DOWN
        · rw [config_eq_in_pulldown pin flags g hpin hdir hpol hpd]
          exact ⟨⟨rfl, rfl, rfl, rfl, rfl, rfl, rfl, rfl, rfl, rfl, rfl, rfl, rfl, rfl⟩,
            fun h0 => absurd hdir h0,
            fun _ => ⟨testBit_clear_self _ _ hpin, testBit_set_self _ _, rfl, rfl⟩⟩
        · exfalso
          rw [config_eq_in pin flags g hpin hdir hpol hpd] at herr
          obtain ⟨e, he⟩ := herr
          by_cases hint : flags &&& GPIO_INT = 0
          · rw [config_interrupt_noint _ _ _ hint] at he
            exact absurd he (by simp)
          · by_cases hedge : flags &&& GPIO_INT_EDGE = 0
            · by_cases hah : flags &&& GPIO_INT_ACTIVE_HIGH = 0
              · rw [config_interrupt_level_low _ _ _ hint hdir hedge hah] at he
                exact absurd he (by simp)
              · rw [config_interrupt_level_high _ _ _ hint hdir hedge hah] at he
                exact absurd he (by simp)
            · by_cases hdbl : flags &&& GPIO_INT_DOUBLE_EDGE = 0
              · by_cases hah : flags &&& GPIO_INT_ACTIVE_HIGH = 0
                · rw [config_interrupt_edge_low _ _ _ hint hdir hedge hdbl hah] at he
                  exact absurd he (by simp)
                · rw [config_interrupt_edge_high _ _ _ hint hdir hedge hdbl hah] at he
                  exact absurd he (by simp)
              · rw [config_interrupt_edge_double _ _ _ hint hdir hedge hdbl] at he
                exact absurd he (by simp)
  · rw [config_eq_notsup access_op pin flags g haop]
    exact ⟨fun _ => rfl, fun _ => rfl, fun h0 => absurd h0 haop⟩

/-- Witness for `config_error_effects`: the rejected input+invert
configuration of pin 0 leaves `pue` untouched while the direction bits have
been applied. -/
theorem config_error_effects_witness :
    (gpio_sifive_config GPIO_ACCESS_BY_PIN 0 GPIO_POL_INV regsOut0).2.pue = regsOut0.pue ∧
    (gpio_sifive_config GPIO_ACCESS_BY_PIN 0 GPIO_POL_INV regsOut0).2.out_en.testBit 0 = false ∧
    (gpio_sifive_config GPIO_ACCESS_BY_PIN 0 GPIO_POL_INV regsOut0).2.in_en.testBit 0 = true := by
  have h := config_error_effects GPIO_ACCESS_BY_PIN 0 GPIO_POL_INV regsOut0
    ⟨Errno.EINVAL, rfl⟩
  have h3 := h.2.2 rfl (by decide)
  exact ⟨h3.1.1, (h3.2.2 (by decide)).1, (h3.2.2 (by decide)).2.1⟩

end GpioSifive
